import Mathlib

/-!
Verification of the Askify dubbing pipeline (src/dub.py, src/app.py, src/main.py).

The Python functions are shallowly embedded as executable Lean definitions:
  * `create_dub_job` models dub.py lines 69-92 (locale validation, provider
    call effects, response-shape normalization of the creation reply);
  * `poll_job_until_complete` models dub.py lines 94-117 as a fuel-bounded
    loop over an abstract provider-status sequence and an abstract wall clock
    (reading `clock i` is the i-th call to `time.time()`);
  * `srt_to_plain_text` models dub.py lines 126-132, with the three
    `re.sub` passes implemented as concrete left-to-right scans that
    reproduce the Python regex engine's leftmost greedy backtracking
    behaviour on those fixed patterns (ASCII digits; whitespace is the
    set matched by both Python `\s` and `str.strip`);
  * `generate_notes_from_text` models dub.py lines 154-160 with the model
    call abstracted as an `Except` value;
  * `resolveDub` models the result-resolution block of app.py lines 222-241;
  * `api_dub_status_branch` models the terminal/non-terminal branch of the
    `GET /api/dub_status` handler, main.py lines 65-71.
Time and the poll interval are modelled over `ℚ` (Python floats carry no
rounding issues for any of the stated properties).
-/

namespace Askify

/-- Characters treated as whitespace by Python's regex `\s` and by
`str.strip` (the two sets coincide; Unicode code points included). -/
def pyIsSpace (c : Char) : Bool :=
  c == '\t' || c == '\n' || c == '\x0B' || c == '\x0C' || c == '\r' ||
  c == ' ' || (0x1C <= c.toNat && c.toNat <= 0x1F) ||
  c.toNat == 0x85 || c.toNat == 0xA0 || c.toNat == 0x1680 ||
  (0x2000 <= c.toNat && c.toNat <= 0x200A) ||
  c.toNat == 0x2028 || c.toNat == 0x2029 || c.toNat == 0x202F ||
  c.toNat == 0x205F || c.toNat == 0x3000

/-- Python `str.upper()` (ASCII letters; the statuses involved are ASCII). -/
def pyUpper (s : String) : String := String.mk (s.data.map Char.toUpper)

/-- Python `str.lower()` (ASCII letters). -/
def pyLower (s : String) : String := String.mk (s.data.map Char.toLower)

deriving instance DecidableEq for Except

/-- Python `str.strip()` on a character list. -/
def pyStripList (cs : List Char) : List Char :=
  ((cs.dropWhile pyIsSpace).reverse.dropWhile pyIsSpace).reverse

/-- Python `str.strip()`. -/
def pyStrip (s : String) : String := String.mk (pyStripList s.data)

/-- Python truthiness of an optional string: `None` and `""` are falsy. -/
def pyTruthyStr : Option String → Bool
  | none => false
  | some s => s ≠ ""

/-- Python `a or b` on optional strings (falsy left operand selects `b`). -/
def pyOrStr (a b : Option String) : Option String :=
  if pyTruthyStr a then a else b

/-! ## Locale registry (dub.py lines 26-31) -/

/-- The list `TARGET_LOCALES`, dub.py lines 26-31. -/
def TARGET_LOCALES : List String :=
  ["en_US", "en_UK", "en_IN", "en_SCOTT", "en_AU",
   "fr_FR", "de_DE", "es_ES", "es_MX", "it_IT", "pt_BR", "pl_PL",
   "hi_IN", "ko_KR", "ta_IN", "bn_IN", "ja_JP", "zh_CN", "nl_NL", "fi_FI",
   "ru_RU", "tr_TR", "uk_UA", "da_DK", "id_ID", "ro_RO", "nb_NO"]

/-! ## Job submission (dub.py lines 69-92) -/

/-- Shape of the provider's reply to job creation: a mapping
(`isinstance(res, dict)`) carrying the values found under the keys
`id` and `job_id` (absent key = `none`), or a non-mapping object carrying
the values of `getattr(res, "id"/"job_id", None)` together with whether
accessing `res.__dict__` succeeds. -/
inductive CreateReply where
  | mapping (idField jobIdField : Option String)
  | object (idField jobIdField : Option String) (hasDictAttr : Bool)
  deriving DecidableEq, Repr

/-- The `SimpleNamespace` returned by `create_dub_job`: only its `id`
field matters to the callers. -/
structure JobHandle where
  id : Option String
  deriving DecidableEq, Repr

/-- Errors raised by `create_dub_job`: the `ValueError` for an unsupported
locale (line 71) and the `ValueError("Unexpected response format")`
(line 92). -/
inductive CreateError where
  | invalidLocale
  | unexpectedFormat
  deriving DecidableEq, Repr

/-- Observable side effects of `create_dub_job`: opening the media file
(line 72) and the provider network call (line 73). -/
inductive Effect where
  | fileOpen
  | networkCreate
  deriving DecidableEq, Repr

/-- Normalization of the creation reply, dub.py lines 80-92.  A mapping
reply yields `id = res.get("id") or res.get("job_id")` (Python `or`, so a
falsy first value falls through, and both absent silently gives `None`).
A non-mapping reply uses `getattr` with `None` defaults, but building the
namespace evaluates `res.__dict__`, whose failure is re-raised as the
`ValueError` of line 92. -/
def parse_create_response : CreateReply → Except CreateError JobHandle
  | .mapping i j => .ok ⟨pyOrStr i j⟩
  | .object i j hasDict =>
      if hasDict then .ok ⟨pyOrStr i j⟩ else .error .unexpectedFormat

/-- Model of `create_dub_job`, dub.py lines 69-92: the locale test of line 70 runs
before the file open and the network call, so an unsupported locale
produces the error with no effects; otherwise the file is opened and the
provider called, and the reply is normalized. -/
def create_dub_job (target_locale : String) (reply : CreateReply) :
    Except CreateError JobHandle × List Effect :=
  if target_locale ∈ TARGET_LOCALES then
    (parse_create_response reply, [.fileOpen, .networkCreate])
  else
    (.error .invalidLocale, [])

/-! ## Job poller (dub.py lines 94-117) -/

/-- dub.py line 116: `sleep_time = min(poll_interval * (1 + attempt // 10), 15)`
(`attempt // 10` is Python integer floor division). -/
def sleep_time (poll_interval : ℚ) (attempt : ℕ) : ℚ :=
  min (poll_interval * (1 + (attempt / 10 : ℕ))) 15

/-- The normalized status mapping the provider returns for one query
(`status_dict` of dub.py lines 101-106): the value under the key
`status` (absent = `none`, `.get` default `""`), plus the remaining
fields, carried opaquely so that the returned payload is the whole
mapping and not just its status. -/
structure StatusPayload where
  status : Option String
  fields : List (String × String)
  deriving DecidableEq, Repr

/-- dub.py line 108: `s = str(status_dict.get("status", "")).upper()`. -/
def normStatus (p : StatusPayload) : String := pyUpper (p.status.getD "")

/-- dub.py line 109: membership in `("COMPLETED", "FAILED", "ERROR")`. -/
def isTerminal (s : String) : Bool :=
  s == "COMPLETED" || s == "FAILED" || s == "ERROR"

/-- Exit of the polling loop: the returned namespace (line 110) or the
`TimeoutError` (line 113). -/
inductive PollResult where
  | done (payload : StatusPayload)
  | timeout
  deriving DecidableEq, Repr

/-- One run of the polling loop: how it exited, how many status queries
it issued, and the sleep durations it performed, in order. -/
structure PollOutcome where
  result : PollResult
  queries : ℕ
  sleeps : List ℚ
  deriving DecidableEq, Repr

/-- The `while True` loop of dub.py lines 98-117.  `provider n` is the
normalized payload of the n-th status query (line 99); `clock i` is the
i-th reading of `time.time()` (reading 0 is `start`, line 95; reading
n+1 happens at the line-112 check of cycle n).  `n` counts queries
issued so far, `attempt` is the Python variable, `acc` accumulates sleeps
in reverse.  `fuel` bounds the number of cycles modelled (the Python loop
is unbounded); exhausted fuel yields `none`. -/
def pollLoopAux (provider : ℕ → StatusPayload) (clock : ℕ → ℚ)
    (timeout_sec poll_interval : ℚ) :
    ℕ → ℕ → ℕ → List ℚ → Option PollOutcome
  | 0, _, _, _ => none
  | fuel + 1, n, attempt, acc =>
      let p := provider n
      if isTerminal (normStatus p) then
        some ⟨.done p, n + 1, acc.reverse⟩
      else if clock (n + 1) - clock 0 > timeout_sec then
        some ⟨.timeout, n + 1, acc.reverse⟩
      else
        pollLoopAux provider clock timeout_sec poll_interval fuel (n + 1)
          (attempt + 1) (sleep_time poll_interval (attempt + 1) :: acc)

/-- Model of `poll_job_until_complete`, dub.py lines 94-117, started with
`attempt = 0` and no queries issued. -/
def poll_job_until_complete (provider : ℕ → StatusPayload) (clock : ℕ → ℚ)
    (timeout_sec poll_interval : ℚ) (fuel : ℕ) : Option PollOutcome :=
  pollLoopAux provider clock timeout_sec poll_interval fuel 0 0 []

/-! ## Subtitle normalizer (dub.py lines 126-132)

The three `re.sub` passes of `srt_to_plain_text` are embedded as concrete
left-to-right scans.  Each matcher reproduces Python's leftmost greedy
matching with backtracking on its fixed pattern; `\d` is modelled as the
ASCII digits (the subtitle cue indices and timestamps the code targets). -/

/-- Matcher for the fixed fragment `\d{2}:\d{2}:\d{2},\d{3}`; on success
returns the remaining input. -/
def matchTimestamp : List Char → Option (List Char)
  | a :: b :: c :: d :: e :: f :: g :: h :: i :: j :: k :: l :: rest =>
      if a.isDigit && b.isDigit && c == ':' && d.isDigit && e.isDigit &&
          f == ':' && g.isDigit && h.isDigit && i == ',' &&
          j.isDigit && k.isDigit && l.isDigit then
        some rest
      else none
  | _ => none

/-- Matcher at one position for the pattern of dub.py line 128,
`\d+\s*\n TS \s*--> \s*TS` with `TS` the timestamp fragment.  Under
leftmost greedy matching with backtracking this succeeds exactly when a
nonempty digit run is followed by a whitespace run whose last character
is a newline (the greedy `\s*` backtracks so that the literal `\n`
matches that last newline; any earlier split leaves whitespace where the
timestamp's first digit must be), then a timestamp, whitespace, `-->`,
whitespace and a second timestamp.  On success returns the rest. -/
def matchP1 (cs : List Char) : Option (List Char) :=
  let d := cs.takeWhile Char.isDigit
  let r1 := cs.dropWhile Char.isDigit
  if d.isEmpty then none
  else
    let w := r1.takeWhile pyIsSpace
    let r2 := r1.dropWhile pyIsSpace
    if w.getLast? == some '\n' then
      match matchTimestamp r2 with
      | none => none
      | some r3 =>
          match r3.dropWhile pyIsSpace with
          | '-' :: '-' :: '>' :: r5 => matchTimestamp (r5.dropWhile pyIsSpace)
          | _ => none
    else none

/-- The first `re.sub` pass (line 128): scan left to right; at each
position a match is dropped (the replacement is empty) and the scan
continues after it, otherwise one character is emitted.  A match always
consumes at least one character, so `fuel = length` suffices. -/
def sub1Aux : ℕ → List Char → List Char
  | 0, cs => cs
  | _ + 1, [] => []
  | fuel + 1, c :: cs =>
      match matchP1 (c :: cs) with
      | some rest => sub1Aux fuel rest
      | none => c :: sub1Aux fuel cs

/-- dub.py line 128. -/
def sub1 (cs : List Char) : List Char := sub1Aux cs.length cs

/-- The second `re.sub` pass (line 129), `\n{2,}` replaced by a single
newline: a maximal run of two or more newlines is collapsed to one. -/
def sub2Aux : ℕ → List Char → List Char
  | 0, cs => cs
  | _ + 1, [] => []
  | fuel + 1, c :: cs =>
      if c == '\n' && cs.head? == some '\n' then
        '\n' :: sub2Aux fuel (cs.dropWhile (· == '\n'))
      else c :: sub2Aux fuel cs

/-- dub.py line 129. -/
def sub2 (cs : List Char) : List Char := sub2Aux cs.length cs

/-- The suffix of a list starting at its last newline, if any. -/
def suffixFromLastNewline : List Char → Option (List Char)
  | [] => none
  | c :: cs =>
      match suffixFromLastNewline cs with
      | some s => some s
      | none => if c == '\n' then some (c :: cs) else none

/-- Matcher at a line start for `(?m)^\d+\s*$` (dub.py line 130): a
nonempty digit run, then the greedy `\s*` backtracks until `$` holds
(`$` matches at end of input or before a newline).  The longest viable
whitespace prefix ends either at the end of the input (whole run
consumed) or just before the run's last newline.  On success returns the
remaining input, which is therefore empty or starts with a newline. -/
def matchP3 (cs : List Char) : Option (List Char) :=
  let d := cs.takeWhile Char.isDigit
  let r1 := cs.dropWhile Char.isDigit
  if d.isEmpty then none
  else
    let r2 := r1.dropWhile pyIsSpace
    if r2.isEmpty then some []
    else
      match suffixFromLastNewline (r1.takeWhile pyIsSpace) with
      | some tail => some (tail ++ r2)
      | none => none

/-- The third `re.sub` pass (line 130), with the multiline `^` anchor
threaded as a flag: a position is a line start iff it is the start of the
input or follows a newline.  After a match the rest is empty or starts
with a newline, so the flag passed there is irrelevant (a newline is not
a digit and cannot begin a match). -/
def sub3Aux : ℕ → Bool → List Char → List Char
  | 0, _, cs => cs
  | _ + 1, _, [] => []
  | fuel + 1, atLineStart, c :: cs =>
      if atLineStart then
        match matchP3 (c :: cs) with
        | some rest => sub3Aux fuel false rest
        | none => c :: sub3Aux fuel (c == '\n') cs
      else c :: sub3Aux fuel (c == '\n') cs

/-- dub.py line 130. -/
def sub3 (cs : List Char) : List Char := sub3Aux cs.length true cs

/-- Model of `srt_to_plain_text`, dub.py lines 126-132, on the decoded text.  (The
UTF-8 decode with `errors="ignore"` of line 127 is surjective onto
strings and is the identity on the re-encoding of a previous output,
which is all the stated properties need.) -/
def srt_to_plain_text (s : String) : String :=
  String.mk (pyStripList (sub3 (sub2 (sub1 s.data))))

/-! ## Notes generator (dub.py lines 154-160) -/

/-- Model of `generate_notes_from_text`, dub.py lines 154-160, with the language
model call abstracted as its outcome: `.ok content` is a successful reply
text (`resp.content`), `.error e` the string form of a raised exception.
The `try/except` makes the function total: the success branch returns the
reply stripped, the failure branch the f-string
`"- (Error generating notes) {e}"`. -/
def generate_notes_from_text : Except String String → String
  | .ok content => pyStrip content
  | .error e => "- (Error generating notes) " ++ e

/-! ## Result resolver (app.py lines 222-241) -/

/-- One download descriptor: `download_url` attribute and the optional
`download_srt_url` (read via `getattr` with default `None`). -/
structure Descriptor where
  download_url : Option String
  download_srt_url : Option String
  deriving DecidableEq, Repr

/-- The terminal payload as consumed by the app.py pipeline: the `status`
string and the `download_details` value (`None` or a list). -/
structure FinalStatus where
  status : String
  download_details : Option (List Descriptor)
  deriving DecidableEq, Repr

/-- The distinct failure exits of the Step-3 block of app.py:
`"Dub job did not complete"` (line 223), `"No download details returned."`
(line 228) and `"No dubbed video found."` (line 236). -/
inductive DubError where
  | jobNotCompleted
  | noDownloadDetails
  | noDubbedMedia
  deriving DecidableEq, Repr

/-- The result-resolution logic of app.py lines 222-241.  On success
returns the dubbed-media URL that is fetched and the subtitle URL that is
fetched if truthy (`if srt_url:`, line 240); `if not details:` catches
both `None` and the empty list, and `if not download_url:` fires even
though the subtitle URL was already read (line 233 precedes line 235). -/
def resolveDub (final : FinalStatus) : Except DubError (String × Option String) :=
  if pyUpper final.status ≠ "COMPLETED" then .error .jobNotCompleted
  else
    match final.download_details with
    | none => .error .noDownloadDetails
    | some [] => .error .noDownloadDetails
    | some (first :: _) =>
        let srt_url := if pyTruthyStr first.download_srt_url then first.download_srt_url else none
        if pyTruthyStr first.download_url then .ok (first.download_url.getD "", srt_url)
        else .error .noDubbedMedia

/-! ## Status endpoint branch (main.py lines 65-92) -/

/-- The two response shapes of `GET /api/dub_status`: the bare
`{"status": s}` of the non-terminal branch (line 71) and the full
response of the terminal path, whose `status` field is `s.lower()`
(line 88; its other fields are outside the claims' scope). -/
inductive DubStatusResponse where
  | nonterminal (status : String)
  | terminal (status : String)
  deriving DecidableEq, Repr

/-- The branch structure of `api_dub_status`, main.py lines 65-92:
`s = str(getattr(status, "status", "")).upper()` and the membership test
`s not in ("COMPLETED", "FAILED", "ERROR")` decide which response is
built from the payload returned by `poll_job_until_complete`. -/
def api_dub_status (p : StatusPayload) : DubStatusResponse :=
  let s := pyUpper (p.status.getD "")
  if isTerminal s then .terminal (pyLower s) else .nonterminal s

/-! ## No-match predicates for the normalizer passes

Decidable characterizations of inputs on which a given `re.sub` pass
finds no match at any position, so the pass is the identity. -/

/-- No suffix of the input begins a match of the line-128 pattern. -/
def noP1 : List Char → Bool
  | [] => true
  | c :: cs => (matchP1 (c :: cs)).isNone && noP1 cs

/-- The input has no two consecutive newlines (no line-129 match). -/
def noDoubleNL : List Char → Bool
  | [] => true
  | [_] => true
  | a :: b :: rest => !(a == '\n' && b == '\n') && noDoubleNL (b :: rest)

/-- No line start of the input begins a match of the line-130 pattern
(`flag` records whether the current position is a line start). -/
def noP3Aux : Bool → List Char → Bool
  | _, [] => true
  | atLineStart, c :: cs =>
      (!atLineStart || (matchP3 (c :: cs)).isNone) && noP3Aux (c == '\n') cs

/-! # Theorems -/

/-! ## Poller step lemmas -/

/-- Loop cycle returning the payload: the queried status is terminal. -/
theorem pollLoopAux_terminal_step (provider : ℕ → StatusPayload) (clock : ℕ → ℚ)
    (T I : ℚ) (fuel n attempt : ℕ) (acc : List ℚ)
    (h : isTerminal (normStatus (provider n)) = true) :
    pollLoopAux provider clock T I (fuel + 1) n attempt acc =
      some ⟨.done (provider n), n + 1, acc.reverse⟩ := by
  simp [pollLoopAux, h]

/-- Loop cycle raising the timeout: non-terminal status and elapsed time
beyond the timeout. -/
theorem pollLoopAux_timeout_step (provider : ℕ → StatusPayload) (clock : ℕ → ℚ)
    (T I : ℚ) (fuel n attempt : ℕ) (acc : List ℚ)
    (h : isTerminal (normStatus (provider n)) = false)
    (hc : clock (n + 1) - clock 0 > T) :
    pollLoopAux provider clock T I (fuel + 1) n attempt acc =
      some ⟨.timeout, n + 1, acc.reverse⟩ := by
  simp [pollLoopAux, h, hc]

/-- Loop cycle that sleeps and retries: non-terminal status, elapsed time
within the timeout; the attempt counter increments and the sleep uses the
incremented value (dub.py lines 115-117). -/
theorem pollLoopAux_retry_step (provider : ℕ → StatusPayload) (clock : ℕ → ℚ)
    (T I : ℚ) (fuel n attempt : ℕ) (acc : List ℚ)
    (h : isTerminal (normStatus (provider n)) = false)
    (hc : ¬ clock (n + 1) - clock 0 > T) :
    pollLoopAux provider clock T I (fuel + 1) n attempt acc =
      pollLoopAux provider clock T I fuel (n + 1) (attempt + 1)
        (sleep_time I (attempt + 1) :: acc) := by
  simp [pollLoopAux, h, hc]

/-- C1: when the first two queried statuses are non-terminal, the third is
COMPLETED, and the timeout has not elapsed at the two intermediate
checks, the poller returns the third payload after exactly 3 queries
(and hence issues no query after the terminal one), having slept twice. -/
theorem poll_returns_third_completed (provider : ℕ → StatusPayload) (clock : ℕ → ℚ)
    (T I : ℚ) (fuel : ℕ)
    (h0 : isTerminal (normStatus (provider 0)) = false)
    (h1 : isTerminal (normStatus (provider 1)) = false)
    (h2 : normStatus (provider 2) = "COMPLETED")
    (hc1 : ¬ clock 1 - clock 0 > T)
    (hc2 : ¬ clock 2 - clock 0 > T)
    (hf : 3 ≤ fuel) :
    poll_job_until_complete provider clock T I fuel =
      some ⟨.done (provider 2), 3, [sleep_time I 1, sleep_time I 2]⟩ := by
  obtain ⟨m, rfl⟩ : ∃ m, fuel = ((m + 1) + 1) + 1 := ⟨fuel - 3, by omega⟩
  unfold poll_job_until_complete
  rw [pollLoopAux_retry_step provider clock T I ((m + 1) + 1) 0 0 [] h0 hc1,
    pollLoopAux_retry_step provider clock T I (m + 1) 1 1 _ h1 hc2,
    pollLoopAux_terminal_step provider clock T I m 2 2 _
      (by rw [h2]; decide)]
  simp

/-- Witness for C1: a RUNNING-RUNNING-COMPLETED provider sequence under a
constant clock. -/
theorem poll_returns_third_completed_witness :
    poll_job_until_complete
        (fun n => if n < 2 then ⟨some "RUNNING", []⟩ else ⟨some "COMPLETED", []⟩)
        (fun _ => 0) 1800 3 10 =
      some ⟨.done ⟨some "COMPLETED", []⟩, 3, [sleep_time 3 1, sleep_time 3 2]⟩ := by
  have h := poll_returns_third_completed
    (fun n => if n < 2 then ⟨some "RUNNING", []⟩ else ⟨some "COMPLETED", []⟩)
    (fun _ => 0) 1800 3 10 (by decide) (by decide) (by decide)
    (by norm_num) (by norm_num) (by norm_num)
  simpa using h

/-! ## Normalizer pass-identity lemmas -/

/-- A pass that never matches is the identity: line-128 pattern. -/
theorem sub1Aux_of_noP1 : ∀ fuel cs, noP1 cs = true → sub1Aux fuel cs = cs := by
  intro fuel
  induction fuel with
  | zero => intro cs h; rfl
  | succ fuel ih =>
      intro cs h
      cases cs with
      | nil => rfl
      | cons c cs =>
          rw [noP1, Bool.and_eq_true, Option.isNone_iff_eq_none] at h
          rw [sub1Aux, h.1, ih cs h.2]

/-- A pass that never matches is the identity: line-129 pattern. -/
theorem sub2Aux_of_noDoubleNL : ∀ fuel cs, noDoubleNL cs = true → sub2Aux fuel cs = cs := by
  intro fuel
  induction fuel with
  | zero => intro cs h; rfl
  | succ fuel ih =>
      intro cs h
      cases cs with
      | nil => rfl
      | cons c cs =>
          have hcond : (c == '\n' && cs.head? == some '\n') = false := by
            cases cs with
            | nil => simp
            | cons b rest =>
                rw [noDoubleNL, Bool.and_eq_true] at h
                have h1 := h.1
                simp only [Bool.not_eq_true'] at h1
                simpa using h1
          have htail : noDoubleNL cs = true := by
            cases cs with
            | nil => rfl
            | cons b rest =>
                rw [noDoubleNL, Bool.and_eq_true] at h
                exact h.2
          rw [sub2Aux, hcond]
          simp [ih cs htail]

/-- A pass that never matches is the identity: line-130 pattern. -/
theorem sub3Aux_of_noP3 : ∀ fuel flag cs, noP3Aux flag cs = true → sub3Aux fuel flag cs = cs := by
  intro fuel
  induction fuel with
  | zero => intro flag cs h; rfl
  | succ fuel ih =>
      intro flag cs h
      cases cs with
      | nil => rfl
      | cons c cs =>
          rw [noP3Aux, Bool.and_eq_true] at h
          cases flag with
          | false =>
              rw [sub3Aux]
              simp [ih (c == '\n') cs h.2]
          | true =>
              have hm : matchP3 (c :: cs) = none := by
                have := h.1
                simpa [Option.isNone_iff_eq_none] using this
              rw [sub3Aux]
              simp [hm, ih (c == '\n') cs h.2]

/-- When none of the three patterns occurs in the input, the whole
normalizer reduces to `str.strip`. -/
theorem srt_to_plain_text_of_clean (s : String)
    (h1 : noP1 s.data = true) (h2 : noDoubleNL s.data = true)
    (h3 : noP3Aux true s.data = true) :
    srt_to_plain_text s = pyStrip s := by
  unfold srt_to_plain_text pyStrip
  rw [sub1, sub1Aux_of_noP1 _ _ h1, sub2, sub2Aux_of_noDoubleNL _ _ h2,
    sub3, sub3Aux_of_noP3 _ _ _ h3]

/-- C6 (amended): subtitle normalization is not idempotent in general
(see the counterexample: numeric-line removal runs after blank-line
collapsing and can leave blank-line runs that a second application
collapses); it does act as pure trimming on any input free of the three
patterns — no cue-index-plus-timestamp markup, no run of two or more
newlines, no standalone numeric line — and it is idempotent on every such
input that is already trimmed. -/
theorem srt_trim_only_on_clean (s : String)
    (h1 : noP1 s.data = true) (h2 : noDoubleNL s.data = true)
    (h3 : noP3Aux true s.data = true) :
    srt_to_plain_text s = pyStrip s
    ∧ (pyStrip s = s →
        srt_to_plain_text (srt_to_plain_text s) = srt_to_plain_text s) := by
  have key := srt_to_plain_text_of_clean s h1 h2 h3
  refine ⟨key, fun htrim => ?_⟩
  rw [key, htrim]
  exact key.trans htrim

/-- Witness for the amended C6 at a markup-free, trimmed string. -/
theorem srt_trim_only_on_clean_witness :
    noP1 "Hello world\nSecond line".data = true
    ∧ noDoubleNL "Hello world\nSecond line".data = true
    ∧ noP3Aux true "Hello world\nSecond line".data = true
    ∧ pyStrip "Hello world\nSecond line" = "Hello world\nSecond line"
    ∧ srt_to_plain_text "Hello world\nSecond line" = pyStrip "Hello world\nSecond line"
    ∧ srt_to_plain_text (srt_to_plain_text "Hello world\nSecond line")
        = srt_to_plain_text "Hello world\nSecond line" := by
  refine ⟨by decide, by decide, by decide, by decide, ?_, ?_⟩
  · exact (srt_trim_only_on_clean "Hello world\nSecond line"
      (by decide) (by decide) (by decide)).1
  · exact (srt_trim_only_on_clean "Hello world\nSecond line"
      (by decide) (by decide) (by decide)).2 (by decide)

/-- C6 counterexample: normalization is not idempotent, and a string with
no cue markup is not always returned merely trimmed.  On "a\n12\n34\nb"
the numeric-line removal leaves "a\n\n\nb", whose blank lines only a
second application collapses; and the markup-free trimmed "a\n\n\nb"
itself is changed by normalization, not returned unchanged. -/
theorem srt_not_idempotent :
    srt_to_plain_text "a\n12\n34\nb" = "a\n\n\nb"
    ∧ srt_to_plain_text (srt_to_plain_text "a\n12\n34\nb") = "a\nb"
    ∧ srt_to_plain_text (srt_to_plain_text "a\n12\n34\nb")
        ≠ srt_to_plain_text "a\n12\n34\nb"
    ∧ srt_to_plain_text "a\n\n\nb" ≠ "a\n\n\nb" := by
  refine ⟨by decide, by decide, by decide, by decide⟩

/-- C7: `srt_to_plain_text` applied to the exact two-cue subtitle text
returns exactly `"Hello world\nSecond line"`. -/
theorem srt_end_to_end :
    srt_to_plain_text
        "1\n00:00:01,000 --> 00:00:02,000\nHello world\n\n2\n00:00:02,500 --> 00:00:03,000\nSecond line\n"
      = "Hello world\nSecond line" := by decide

/-- Against a provider that never reports a terminal status, every normal
return of the loop is a timeout, raised at a check where the elapsed time
exceeds the timeout and such that every earlier check was within it. -/
theorem pollLoopAux_timeout_char (provider : ℕ → StatusPayload) (clock : ℕ → ℚ)
    (T I : ℚ) (hnt : ∀ m, isTerminal (normStatus (provider m)) = false) :
    ∀ fuel n attempt acc o,
      pollLoopAux provider clock T I fuel n attempt acc = some o →
      o.result = .timeout ∧ n + 1 ≤ o.queries ∧ clock o.queries - clock 0 > T ∧
        ∀ j, n + 1 ≤ j → j < o.queries → clock j - clock 0 ≤ T := by
  intro fuel
  induction fuel with
  | zero =>
      intro n attempt acc o h
      simp [pollLoopAux] at h
  | succ fuel ih =>
      intro n attempt acc o h
      by_cases hc : clock (n + 1) - clock 0 > T
      · rw [pollLoopAux_timeout_step provider clock T I fuel n attempt acc (hnt n) hc] at h
        obtain rfl : (⟨.timeout, n + 1, acc.reverse⟩ : PollOutcome) = o := Option.some.inj h
        exact ⟨rfl, le_refl _, hc,
          fun j hj1 hj2 => absurd (show j < n + 1 from hj2) (by omega)⟩
      · rw [pollLoopAux_retry_step provider clock T I fuel n attempt acc (hnt n) hc] at h
        obtain ⟨hres, hq, hgt, hle⟩ := ih (n + 1) (attempt + 1) _ o h
        refine ⟨hres, by omega, hgt, fun j hj1 hj2 => ?_⟩
        rcases eq_or_lt_of_le hj1 with he | hlt
        · rw [← he]
          exact not_lt.mp hc
        · exact hle j (by omega) hj2

/-- Against a provider that never reports a terminal status, once some
clock reading exceeds the timeout, the loop (given enough cycles) does
return, and with a timeout. -/
theorem pollLoopAux_timeout_exists (provider : ℕ → StatusPayload) (clock : ℕ → ℚ)
    (T I : ℚ) (hnt : ∀ m, isTerminal (normStatus (provider m)) = false) :
    ∀ fuel n attempt acc k, n ≤ k → k < n + fuel → clock (k + 1) - clock 0 > T →
      ∃ o, pollLoopAux provider clock T I fuel n attempt acc = some o ∧
        o.result = .timeout := by
  intro fuel
  induction fuel with
  | zero =>
      intro n attempt acc k h1 h2 h3
      omega
  | succ fuel ih =>
      intro n attempt acc k h1 h2 h3
      by_cases hc : clock (n + 1) - clock 0 > T
      · exact ⟨⟨.timeout, n + 1, acc.reverse⟩,
          pollLoopAux_timeout_step provider clock T I fuel n attempt acc (hnt n) hc, rfl⟩
      · have hnk : n ≠ k := fun he => hc (he ▸ h3)
        obtain ⟨o, ho, hr⟩ := ih (n + 1) (attempt + 1)
          (sleep_time I (attempt + 1) :: acc) k (by omega) (by omega) h3
        exact ⟨o, by
          rw [pollLoopAux_retry_step provider clock T I fuel n attempt acc (hnt n) hc]
          exact ho, hr⟩

/-- C2: for a provider that never reaches a terminal status, the poller
raises the timeout exactly when the elapsed wall-clock time since the
first reading exceeds the timeout: any normal return is the surfaced
timeout, raised at a check whose elapsed time exceeds `T` with every
earlier check within `T` (never while elapsed ≤ `T`); and whenever some
check's elapsed time exceeds `T`, the loop does return the timeout (it is
not silently retried past it). -/
theorem poll_timeout_spec (provider : ℕ → StatusPayload) (clock : ℕ → ℚ) (T I : ℚ)
    (hnt : ∀ m, isTerminal (normStatus (provider m)) = false) :
    (∀ fuel o, poll_job_until_complete provider clock T I fuel = some o →
        o.result = .timeout ∧ clock o.queries - clock 0 > T ∧
          ∀ j, 1 ≤ j → j < o.queries → clock j - clock 0 ≤ T)
    ∧ (∀ k fuel, clock (k + 1) - clock 0 > T → k < fuel →
        ∃ o, poll_job_until_complete provider clock T I fuel = some o ∧
          o.result = .timeout) := by
  constructor
  · intro fuel o h
    obtain ⟨h1, _, h3, h4⟩ :=
      pollLoopAux_timeout_char provider clock T I hnt fuel 0 0 [] o h
    exact ⟨h1, h3, fun j hj1 hj2 => h4 j (by omega) hj2⟩
  · intro k fuel h hk
    exact pollLoopAux_timeout_exists provider clock T I hnt fuel 0 0 [] k
      (by omega) (by omega) h

/-- Witness for C2: an always-RUNNING provider whose second clock reading
exceeds the 1800 timeout. -/
theorem poll_timeout_spec_witness :
    poll_job_until_complete (fun _ => ⟨some "RUNNING", []⟩)
        (fun i => if i = 0 then 0 else 2000) 1800 3 1 = some ⟨.timeout, 1, []⟩
    ∧ PollOutcome.result ⟨.timeout, 1, []⟩ = .timeout
    ∧ ((fun i => if i = 0 then (0 : ℚ) else 2000) 1 -
        (fun i => if i = 0 then (0 : ℚ) else 2000) 0 > 1800) := by
  have heq : poll_job_until_complete (fun _ => ⟨some "RUNNING", []⟩)
      (fun i => if i = 0 then 0 else 2000) 1800 3 1 = some ⟨.timeout, 1, []⟩ := by
    unfold poll_job_until_complete
    rw [pollLoopAux_timeout_step _ _ 1800 3 0 0 0 [] (by decide) (by norm_num)]
    rfl
  have h := (poll_timeout_spec (fun _ => ⟨some "RUNNING", []⟩)
      (fun i => if i = 0 then 0 else 2000) 1800 3 (fun m => rfl)).1 1
      ⟨.timeout, 1, []⟩ heq
  exact ⟨heq, h.1, h.2.1⟩

/-- Against a provider that never reports a terminal status, the sleeps a
run performs are exactly one per cycle, computed at successive attempt
values starting from the incremented initial counter: the attempt counter
increments by one every cycle. -/
theorem pollLoopAux_sleeps (provider : ℕ → StatusPayload) (clock : ℕ → ℚ)
    (T I : ℚ) (hnt : ∀ m, isTerminal (normStatus (provider m)) = false) :
    ∀ fuel n attempt acc o,
      pollLoopAux provider clock T I fuel n attempt acc = some o →
      ∃ m, 1 ≤ m ∧ o.queries = n + m ∧
        o.sleeps = acc.reverse ++
          (List.range (m - 1)).map (fun k => sleep_time I (attempt + 1 + k)) := by
  intro fuel
  induction fuel with
  | zero =>
      intro n attempt acc o h
      simp [pollLoopAux] at h
  | succ fuel ih =>
      intro n attempt acc o h
      by_cases hc : clock (n + 1) - clock 0 > T
      · rw [pollLoopAux_timeout_step provider clock T I fuel n attempt acc (hnt n) hc] at h
        obtain rfl : (⟨.timeout, n + 1, acc.reverse⟩ : PollOutcome) = o := Option.some.inj h
        exact ⟨1, le_refl _, rfl, by simp⟩
      · rw [pollLoopAux_retry_step provider clock T I fuel n attempt acc (hnt n) hc] at h
        obtain ⟨m, hm, hq, hs⟩ := ih (n + 1) (attempt + 1) _ o h
        obtain ⟨m', rfl⟩ : ∃ m', m = m' + 1 := ⟨m - 1, by omega⟩
        refine ⟨m' + 1 + 1, by omega, by omega, ?_⟩
        rw [hs]
        simp only [List.reverse_cons, Nat.add_sub_cancel, List.range_succ_eq_map,
          List.map_cons, List.map_map, List.append_assoc, List.cons_append,
          List.nil_append, List.singleton_append]
        refine congrArg (acc.reverse ++ ·) (congrArg₂ (· :: ·) (by norm_num) ?_)
        refine List.map_congr_left fun k _ => ?_
        exact congrArg (sleep_time I) (by omega)

/-- C3 (amended): the sleep duration of dub.py line 116 equals
`min(I, 15)` for attempt values 0-9 (hence `I` itself whenever `I ≤ 15`),
equals `min(2I, 15)` for attempt values 10-19, never exceeds 15, and in
any timed-out run the j-th sleep (0-indexed) was computed at attempt
value `j + 1`: the attempt counter increments by one every cycle. -/
theorem sleep_time_spec :
    (∀ (I : ℚ) (a : ℕ), a ≤ 9 → sleep_time I a = min I 15)
    ∧ (∀ (I : ℚ) (a : ℕ), I ≤ 15 → a ≤ 9 → sleep_time I a = I)
    ∧ (∀ (I : ℚ) (a : ℕ), 10 ≤ a → a ≤ 19 → sleep_time I a = min (2 * I) 15)
    ∧ (∀ (I : ℚ) (a : ℕ), sleep_time I a ≤ 15)
    ∧ (∀ (provider : ℕ → StatusPayload) (clock : ℕ → ℚ) (T I : ℚ) (fuel : ℕ)
        (o : PollOutcome), (∀ m, isTerminal (normStatus (provider m)) = false) →
        poll_job_until_complete provider clock T I fuel = some o →
        o.sleeps = (List.range (o.queries - 1)).map (fun k => sleep_time I (k + 1))) := by
  have bucket0 : ∀ (I : ℚ) (a : ℕ), a ≤ 9 → sleep_time I a = min I 15 := by
    intro I a ha
    have h10 : a / 10 = 0 := Nat.div_eq_of_lt (by omega)
    simp [sleep_time, h10]
  refine ⟨bucket0, ?_, ?_, ?_, ?_⟩
  · intro I a hI ha
    rw [bucket0 I a ha]
    exact min_eq_left hI
  · intro I a ha1 ha2
    have h10 : a / 10 = 1 := by omega
    rw [sleep_time, h10, mul_comm]
    norm_num
  · intro I a
    exact min_le_right _ _
  · intro provider clock T I fuel o hnt h
    obtain ⟨m, hm, hq, hs⟩ :=
      pollLoopAux_sleeps provider clock T I hnt fuel 0 0 [] o h
    rw [hs, hq]
    simp only [List.reverse_nil, List.nil_append, Nat.zero_add, Nat.add_sub_cancel]
    refine List.map_congr_left fun k _ => ?_
    exact congrArg (sleep_time I) (by omega)

/-- Witness for the amended C3: concrete sleeps in each attempt bucket
and a concrete timed-out run whose sole sleep was computed at attempt 1. -/
theorem sleep_time_spec_witness :
    sleep_time 3 5 = min 3 15
    ∧ sleep_time 3 5 = 3
    ∧ sleep_time 3 12 = min (2 * 3) 15
    ∧ sleep_time 3 55 ≤ 15
    ∧ PollOutcome.sleeps ⟨.timeout, 2, [sleep_time 3 1]⟩ = [sleep_time 3 1] := by
  have heq : poll_job_until_complete (fun _ => ⟨some "RUNNING", []⟩)
      (fun i => if i ≤ 1 then 0 else 2000) 1800 3 2 =
      some ⟨.timeout, 2, [sleep_time 3 1]⟩ := by
    unfold poll_job_until_complete
    rw [pollLoopAux_retry_step (fun _ => ⟨some "RUNNING", []⟩)
        (fun i => if i ≤ 1 then 0 else 2000) 1800 3 1 0 0 [] rfl (by norm_num),
      pollLoopAux_timeout_step (fun _ => ⟨some "RUNNING", []⟩)
        (fun i => if i ≤ 1 then 0 else 2000) 1800 3 0 1 1 _ rfl (by norm_num)]
    rfl
  have h5 := sleep_time_spec.2.2.2.2 (fun _ => ⟨some "RUNNING", []⟩)
    (fun i => if i ≤ 1 then 0 else 2000) 1800 3 2 ⟨.timeout, 2, [sleep_time 3 1]⟩
    (fun m => rfl) heq
  exact ⟨sleep_time_spec.1 3 5 (by omega),
    sleep_time_spec.2.1 3 5 (by norm_num) (by omega),
    sleep_time_spec.2.2.1 3 12 (by omega) (by omega),
    sleep_time_spec.2.2.2.1 3 55,
    by rw [h5]; rfl⟩

/-- C3 counterexample: at base interval 20 and attempt count 1 (a value in
the 0-9 bucket), the sleep is 15, not the base interval 20 the claim
asserts for that bucket. -/
theorem sleep_time_not_base_interval :
    sleep_time 20 1 = 15 ∧ (15 : ℚ) ≠ 20 := by
  constructor
  · have h10 : (1 : ℕ) / 10 = 0 := by norm_num
    rw [sleep_time, h10]
    norm_num
  · norm_num

/-- Any loop exit carrying a payload came from the terminal-status branch
of dub.py line 109: the payload's uppercased status is terminal. -/
theorem pollLoopAux_done_terminal (provider : ℕ → StatusPayload) (clock : ℕ → ℚ)
    (T I : ℚ) :
    ∀ fuel n attempt acc p q sl,
      pollLoopAux provider clock T I fuel n attempt acc = some ⟨.done p, q, sl⟩ →
      isTerminal (normStatus p) = true := by
  intro fuel
  induction fuel with
  | zero =>
      intro n attempt acc p q sl h
      simp [pollLoopAux] at h
  | succ fuel ih =>
      intro n attempt acc p q sl h
      by_cases ht : isTerminal (normStatus (provider n)) = true
      · rw [pollLoopAux_terminal_step provider clock T I fuel n attempt acc ht] at h
        obtain ⟨h1, -, -⟩ := PollOutcome.mk.inj (Option.some.inj h)
        rw [← PollResult.done.inj h1]
        exact ht
      · rw [Bool.not_eq_true] at ht
        by_cases hc : clock (n + 1) - clock 0 > T
        · rw [pollLoopAux_timeout_step provider clock T I fuel n attempt acc ht hc] at h
          exact absurd (PollOutcome.mk.inj (Option.some.inj h)).1 (by simp)
        · rw [pollLoopAux_retry_step provider clock T I fuel n attempt acc ht hc] at h
          exact ih (n + 1) (attempt + 1) _ p q sl h

/-- C10 (amended): every payload returned normally by the poller has a
status whose uppercase form is terminal (COMPLETED, FAILED or ERROR), so
the non-terminal branch of the `/api/dub_status` handler — which
re-uppercases the same field — can never be taken on such a payload. -/
theorem poll_done_is_terminal (provider : ℕ → StatusPayload) (clock : ℕ → ℚ)
    (T I : ℚ) (fuel : ℕ) (o : PollOutcome) (p : StatusPayload)
    (h : poll_job_until_complete provider clock T I fuel = some o)
    (hp : o.result = .done p) :
    isTerminal (normStatus p) = true ∧ ∀ s, api_dub_status p ≠ .nonterminal s := by
  obtain ⟨r, q, sl⟩ := o
  obtain rfl : r = .done p := hp
  have ht := pollLoopAux_done_terminal provider clock T I fuel 0 0 [] p q sl h
  refine ⟨ht, fun s => ?_⟩
  rw [normStatus] at ht
  simp [api_dub_status, ht]

/-- Witness for the amended C10: a run returning a lowercase "completed"
payload, which the status handler still routes to the terminal branch. -/
theorem poll_done_is_terminal_witness :
    isTerminal (normStatus ⟨some "completed", []⟩) = true
    ∧ api_dub_status ⟨some "completed", []⟩ ≠ .nonterminal "RUNNING" :=
  have h := poll_done_is_terminal (fun _ => ⟨some "completed", []⟩) (fun _ => 0) 1800 3 1
    ⟨.done ⟨some "completed", []⟩, 1, []⟩ ⟨some "completed", []⟩ (by decide) rfl
  ⟨h.1, h.2 "RUNNING"⟩

/-- C10 counterexample: a provider reporting the lowercase status
"completed" makes the poller return normally, yet the returned payload's
status field is not uppercase and is not a member of
(COMPLETED, FAILED, ERROR): the loop uppercases only its local test
value, not the returned payload. -/
theorem poll_done_not_uppercase :
    poll_job_until_complete (fun _ => ⟨some "completed", []⟩) (fun _ => 0) 1800 3 1
        = some ⟨.done ⟨some "completed", []⟩, 1, []⟩
    ∧ ¬("completed" = "COMPLETED" ∨ "completed" = "FAILED" ∨ "completed" = "ERROR")
    ∧ "completed" ≠ pyUpper "completed" := by
  refine ⟨by decide, by decide, by decide⟩

/-- C8: the notes generator never propagates a model failure to its
caller: when the model call raises, it returns the placeholder string
beginning with `"- (Error generating notes)"` and embedding the error
detail, and on success it returns the reply text trimmed. -/
theorem generate_notes_error_policy (e content : String) :
    (∃ rest, generate_notes_from_text (.error e) = "- (Error generating notes)" ++ rest)
    ∧ generate_notes_from_text (.error e) = "- (Error generating notes) " ++ e
    ∧ generate_notes_from_text (.ok content) = pyStrip content := by
  exact ⟨⟨" " ++ e, rfl⟩, rfl, rfl⟩

/-- C4: job submission validates the locale before touching the file or
the network: an unsupported locale fails with the invalid-locale error
and produces no effect (no file open, no network call), and a supported
locale never produces that error. -/
theorem create_dub_job_locale_check (locale : String) (reply : CreateReply) :
    (locale ∉ TARGET_LOCALES → create_dub_job locale reply = (.error .invalidLocale, []))
    ∧ (locale ∈ TARGET_LOCALES → (create_dub_job locale reply).1 ≠ .error .invalidLocale) := by
  constructor
  · intro h
    simp [create_dub_job, h]
  · intro h
    cases reply with
    | mapping i j => simp [create_dub_job, h, parse_create_response]
    | object i j hasDict =>
        cases hasDict <;> simp [create_dub_job, h, parse_create_response]

/-- Witness for C4 at a locale outside the registry and one inside it. -/
theorem create_dub_job_locale_check_witness :
    ("xx_XX" ∉ TARGET_LOCALES
      ∧ create_dub_job "xx_XX" (.mapping (some "j") none) = (.error .invalidLocale, []))
    ∧ ("en_US" ∈ TARGET_LOCALES
      ∧ (create_dub_job "en_US" (.mapping (some "j") none)).1 ≠ .error .invalidLocale) :=
  ⟨⟨by decide, (create_dub_job_locale_check "xx_XX" (.mapping (some "j") none)).1 (by decide)⟩,
   ⟨by decide, (create_dub_job_locale_check "en_US" (.mapping (some "j") none)).2 (by decide)⟩⟩

/-- C5 counterexample: a mapping reply carrying neither `id` nor `job_id`
does NOT make `create_dub_job` signal the malformed-response error; it
returns a handle whose identifier is silently `None`. -/
theorem create_dub_job_silent_default :
    (create_dub_job "en_US" (.mapping none none)).1 = .ok ⟨none⟩
    ∧ (create_dub_job "en_US" (.mapping none none)).1 ≠ .error .unexpectedFormat
    ∧ (create_dub_job "en_US" (.mapping none none)).1 ≠ .error .invalidLocale := by
  refine ⟨?_, ?_, ?_⟩ <;> decide

/-- C5 amended: a mapping reply lacking truthy values under both accepted
field names yields a handle with the (falsy) `job_id` value as identifier
— `None` when both are absent — rather than an error; the
unexpected-format `ValueError` is signaled only when the reply is neither
a mapping nor an object whose `__dict__` is accessible, in which case the
object reply with attributes yields the `id`-or-`job_id` value. -/
theorem create_response_no_id_defaults (locale : String) (hmem : locale ∈ TARGET_LOCALES)
    (i j : Option String) :
    (pyTruthyStr i = false → (create_dub_job locale (.mapping i j)).1 = .ok ⟨j⟩)
    ∧ (create_dub_job locale (.object i j true)).1 = .ok ⟨pyOrStr i j⟩
    ∧ (create_dub_job locale (.object i j false)).1 = .error .unexpectedFormat := by
  refine ⟨?_, ?_, ?_⟩
  · intro hi
    simp [create_dub_job, hmem, parse_create_response, pyOrStr, hi]
  · simp [create_dub_job, hmem, parse_create_response]
  · simp [create_dub_job, hmem, parse_create_response]

/-- Witness for the amended C5 at concrete inputs. -/
theorem create_response_no_id_defaults_witness :
    ("en_US" ∈ TARGET_LOCALES)
    ∧ pyTruthyStr none = false
    ∧ (create_dub_job "en_US" (.mapping none none)).1 = .ok ⟨none⟩
    ∧ (create_dub_job "en_US" (.object none (some "idX") true)).1 = .ok ⟨pyOrStr none (some "idX")⟩
    ∧ (create_dub_job "en_US" (.object none none false)).1 = .error .unexpectedFormat :=
  ⟨by decide, by decide,
   (create_response_no_id_defaults "en_US" (by decide) none none).1 (by decide),
   (create_response_no_id_defaults "en_US" (by decide) none (some "idX")).2.1,
   (create_response_no_id_defaults "en_US" (by decide) none none).2.2⟩

/-- C9: on a COMPLETED terminal payload, result resolution fails with the
no-download-details error when the descriptor list is `None` or empty,
fails with the no-dubbed-media error when the first descriptor lacks a
truthy media URL (whatever its subtitle URL is), and a missing subtitle
URL is non-fatal: resolution succeeds and only the dubbed media URL is
fetched. -/
theorem resolveDub_spec (final : FinalStatus) (hst : pyUpper final.status = "COMPLETED") :
    ((final.download_details = none ∨ final.download_details = some []) →
        resolveDub final = .error .noDownloadDetails)
    ∧ (∀ d rest, final.download_details = some (d :: rest) →
        pyTruthyStr d.download_url = false → resolveDub final = .error .noDubbedMedia)
    ∧ (∀ d rest u, final.download_details = some (d :: rest) → d.download_url = some u →
        u ≠ "" → d.download_srt_url = none → resolveDub final = .ok (u, none)) := by
  refine ⟨?_, ?_, ?_⟩
  · rintro (h | h) <;> simp [resolveDub, hst, h]
  · intro d rest h hurl
    simp [resolveDub, hst, h, hurl]
  · intro d rest u h hurl hne hsrt
    simp [resolveDub, hst, h, hurl, hne, hsrt, pyTruthyStr]

/-- Witness for C9 at concrete terminal payloads covering all three
behaviours (including a lowercase provider status). -/
theorem resolveDub_spec_witness :
    pyUpper "completed" = "COMPLETED"
    ∧ resolveDub ⟨"completed", none⟩ = .error .noDownloadDetails
    ∧ resolveDub ⟨"COMPLETED", some []⟩ = .error .noDownloadDetails
    ∧ resolveDub ⟨"COMPLETED", some [⟨none, some "http-srt"⟩]⟩ = .error .noDubbedMedia
    ∧ resolveDub ⟨"COMPLETED", some [⟨some "http-vid", none⟩]⟩ = .ok ("http-vid", none) :=
  ⟨by decide,
   (resolveDub_spec ⟨"completed", none⟩ (by decide)).1 (Or.inl rfl),
   (resolveDub_spec ⟨"COMPLETED", some []⟩ (by decide)).1 (Or.inr rfl),
   (resolveDub_spec ⟨"COMPLETED", some [⟨none, some "http-srt"⟩]⟩ (by decide)).2.1
     ⟨none, some "http-srt"⟩ [] rfl (by decide),
   (resolveDub_spec ⟨"COMPLETED", some [⟨some "http-vid", none⟩]⟩ (by decide)).2.2
     ⟨some "http-vid", none⟩ [] "http-vid" rfl rfl (by decide) rfl⟩

end Askify
